import Mathlib

/-
Shallow embedding of WiNTown's zone-processing module (src/src/zone.c).

The repository ships a single source file, zone.c; its headers (sim.h,
tiles.h) and the other collaborators (tiles.c, traffic.c, scanner.c) are
not part of the sources.  zone.c's own comments pin the zone base
constants (RZB = 265, CZB = 436, IZB = 625, RESBASE = 240); the remaining
tile-code constants and the map-write primitives (setMapTile, UpgradeTile,
SetRubbleTile) are modelled from the specification, as noted on each
definition.  Machine integers are modelled as Lean Int (C `int`/`short`
arithmetic never overflows on the ranges exercised here; divisions and
remainders use Int.tdiv / Int.tmod, C's truncated semantics), and packed
16-bit tile cells as Nat with explicit bit masks.
-/

namespace WiNTown

/-! ### Tile-code constants

`RESBASE`, `RZB`, `CZB`, `IZB` are stated in zone.c's comments.  The other
members of each category follow the fixed tile-sheet layout the spec's
data model describes (clear-zone tile = base + 4, zone center = base + 13,
9-tile stride); their exact values never influence the claims below beyond
being distinct and correctly ordered. -/

def DIRT : Int := 0
def ROADBASE : Int := 64
def ROADS : Int := 66
def LASTROAD : Int := 206
def LASTRAIL : Int := 238
def RESBASE : Int := 240
def FREEZ : Int := 244
def RZB : Int := 265
def HOSPITAL : Int := 409
def CHURCH : Int := 418
def COMBASE : Int := 423
def COMCLR : Int := 427
def CZB : Int := 436
def INDBASE : Int := 612
def INDCLR : Int := 616
def IZB : Int := 625
def PORTBASE : Int := 693
def POWERPLANT : Int := 750
def FIRESTATION : Int := 765
def POLICESTATION : Int := 774
def STADIUM : Int := 784
def NUCLEAR : Int := 816
def LASTZONE : Int := 826
def RUBBLE : Int := 44

/-! ### Tile cell bit flags (16-bit packed cells, from the spec's
bit-flag tile representation; LOMASK/ZONEBIT etc. as in the classic
tile format the spec describes). -/

def LOMASK : Nat := 0x03FF
def ZONEBIT : Nat := 0x0400
def ANIMBIT : Nat := 0x0800
def BULLBIT : Nat := 0x1000
def BURNBIT : Nat := 0x2000
def CONDBIT : Nat := 0x4000
def POWERBIT : Nat := 0x8000

/-- Modelled from the spec: `BNCNBIT` comes from the missing tiles.h; the
spec states the stamper "writes the center tile with the zone-center
marker plus standard structural flags", so `BNCNBIT` is the zone-center
marker bit. -/
def BNCNBIT : Nat := ZONEBIT

/-- Modelled from the spec: grid bounds of the fixed-size 2D tile grid
(sim.h is missing); the exact extent is immaterial to the claims. -/
def WORLD_X : Int := 120

/-- Modelled from the spec: vertical grid bound, see `WORLD_X`. -/
def WORLD_Y : Int := 100

/-- Modelled from the spec: `BSIZE`, the fixed offset added to a center
code for the eight surrounding decorative tiles (tiles.h is missing);
its exact value is immaterial to the claims. -/
def BSIZE : Int := 8

/-! ### Population estimator (calcResPop / calcComPop / calcIndPop,
zone.c lines 62-190), with the three lazily populated caches.

`POP_CACHE_SIZE` is 512; all three caches are keyed by
`zone - RESBASE`.  The caches are modelled as total functions from the
key, the shared `cacheInitialized` flag as a Bool. -/

/-- The cache-free value of `calcResPop` (zone.c lines 62-102 with the
cache reads/writes removed; the theorems below show the cached function
always agrees with it). -/
def resPopPure (zone : Int) : Int :=
  if zone < RESBASE ∨ zone > LASTZONE then 0
  else if zone < RZB ∨ zone - RZB > 32767 then 0
  else if ((zone - RZB).tdiv 9).tmod 4 * 8 + 16 < 0 ∨
          ((zone - RZB).tdiv 9).tmod 4 * 8 + 16 > 1000 then 0
  else ((zone - RZB).tdiv 9).tmod 4 * 8 + 16

/-- The cache-free value of `calcComPop` (zone.c lines 105-146). -/
def comPopPure (zone : Int) : Int :=
  if zone < COMBASE ∨ zone > LASTZONE then 0
  else if zone = COMCLR then 0
  else if zone - COMBASE > 32767 then 0
  else if ((zone - COMBASE).tdiv 9).tmod 5 + 1 < 0 ∨
          ((zone - COMBASE).tdiv 9).tmod 5 + 1 > 100 then 0
  else ((zone - COMBASE).tdiv 9).tmod 5 + 1

/-- The cache-free value of `calcIndPop` (zone.c lines 149-190). -/
def indPopPure (zone : Int) : Int :=
  if zone < INDBASE ∨ zone > LASTZONE then 0
  else if zone = INDCLR then 0
  else if zone - INDBASE > 32767 then 0
  else if ((zone - INDBASE).tdiv 9).tmod 4 + 1 < 0 ∨
          ((zone - INDBASE).tdiv 9).tmod 4 + 1 > 50 then 0
  else ((zone - INDBASE).tdiv 9).tmod 4 + 1

/-- The three static population caches and the shared
`cacheInitialized` flag of zone.c (lines 37-41). -/
structure PopCaches where
  res : Nat → Int
  com : Nat → Int
  ind : Nat → Int
  cacheInit : Bool

/-- The all-zero caches C statics start from. -/
def initCaches : PopCaches := ⟨fun _ => 0, fun _ => 0, fun _ => 0, false⟩

/-- `calcResPop` (zone.c lines 62-102): population of a residential zone
tile, with cache read (guarded by `cacheInitialized`) and cache write
(which sets `cacheInitialized`). -/
def calcResPop (zone : Int) (s : PopCaches) : Int × PopCaches :=
  if zone < RESBASE ∨ zone > LASTZONE then (0, s)
  else if 0 ≤ zone - RESBASE ∧ zone - RESBASE < 512 ∧ s.cacheInit = true ∧
          s.res (zone - RESBASE).toNat ≠ 0 then
    (s.res (zone - RESBASE).toNat, s)
  else if zone < RZB ∨ zone - RZB > 32767 then (0, s)
  else if ((zone - RZB).tdiv 9).tmod 4 * 8 + 16 < 0 ∨
          ((zone - RZB).tdiv 9).tmod 4 * 8 + 16 > 1000 then (0, s)
  else if 0 ≤ zone - RESBASE ∧ zone - RESBASE < 512 then
    (((zone - RZB).tdiv 9).tmod 4 * 8 + 16,
      { s with
        res := fun j => if j = (zone - RESBASE).toNat
          then ((zone - RZB).tdiv 9).tmod 4 * 8 + 16 else s.res j
        cacheInit := true })
  else (((zone - RZB).tdiv 9).tmod 4 * 8 + 16, s)

/-- `calcComPop` (zone.c lines 105-146).  Note the cache key is
`zone - RESBASE` (shared with the residential cache key derivation) and
the write does not set `cacheInitialized`. -/
def calcComPop (zone : Int) (s : PopCaches) : Int × PopCaches :=
  if zone < COMBASE ∨ zone > LASTZONE then (0, s)
  else if zone = COMCLR then (0, s)
  else if 0 ≤ zone - RESBASE ∧ zone - RESBASE < 512 ∧ s.cacheInit = true ∧
          s.com (zone - RESBASE).toNat ≠ 0 then
    (s.com (zone - RESBASE).toNat, s)
  else if zone - COMBASE > 32767 then (0, s)
  else if ((zone - COMBASE).tdiv 9).tmod 5 + 1 < 0 ∨
          ((zone - COMBASE).tdiv 9).tmod 5 + 1 > 100 then (0, s)
  else if 0 ≤ zone - RESBASE ∧ zone - RESBASE < 512 then
    (((zone - COMBASE).tdiv 9).tmod 5 + 1,
      { s with
        com := fun j => if j = (zone - RESBASE).toNat
          then ((zone - COMBASE).tdiv 9).tmod 5 + 1 else s.com j })
  else (((zone - COMBASE).tdiv 9).tmod 5 + 1, s)

/-- `calcIndPop` (zone.c lines 149-190); cache key shared with the
residential derivation, write does not set `cacheInitialized`. -/
def calcIndPop (zone : Int) (s : PopCaches) : Int × PopCaches :=
  if zone < INDBASE ∨ zone > LASTZONE then (0, s)
  else if zone = INDCLR then (0, s)
  else if 0 ≤ zone - RESBASE ∧ zone - RESBASE < 512 ∧ s.cacheInit = true ∧
          s.ind (zone - RESBASE).toNat ≠ 0 then
    (s.ind (zone - RESBASE).toNat, s)
  else if zone - INDBASE > 32767 then (0, s)
  else if ((zone - INDBASE).tdiv 9).tmod 4 + 1 < 0 ∨
          ((zone - INDBASE).tdiv 9).tmod 4 + 1 > 50 then (0, s)
  else if 0 ≤ zone - RESBASE ∧ zone - RESBASE < 512 then
    (((zone - INDBASE).tdiv 9).tmod 4 + 1,
      { s with
        ind := fun j => if j = (zone - RESBASE).toNat
          then ((zone - INDBASE).tdiv 9).tmod 4 + 1 else s.ind j })
  else (((zone - INDBASE).tdiv 9).tmod 4 + 1, s)

/-- Cache coherence: every nonzero cached entry equals the cache-free
value for the zone code its key denotes.  Holds for the initial all-zero
caches and is preserved by every call; the C statics are reachable only
through these functions. -/
def CacheInv (s : PopCaches) : Prop :=
  ∀ i : Nat, i < 512 →
    (s.res i = 0 ∨ s.res i = resPopPure (RESBASE + (i : Int))) ∧
    (s.com i = 0 ∨ s.com i = comPopPure (RESBASE + (i : Int))) ∧
    (s.ind i = 0 ∨ s.ind i = indPopPure (RESBASE + (i : Int)))

theorem cacheInv_init : CacheInv initCaches := by
  intro i _
  refine ⟨Or.inl rfl, Or.inl rfl, Or.inl rfl⟩

theorem calcResPop_spec (zone : Int) (s : PopCaches) (h : CacheInv s) :
    (calcResPop zone s).1 = resPopPure zone ∧ CacheInv (calcResPop zone s).2 := by
  unfold calcResPop
  split_ifs with h1 h2 h3 h4 h5
  · exact ⟨by simp only [resPopPure, if_pos h1], h⟩
  · have hi : (zone - RESBASE).toNat < 512 := by omega
    have hz : RESBASE + ((zone - RESBASE).toNat : Int) = zone := by omega
    have hcell := ((h _ hi).1).resolve_left h2.2.2.2
    rw [hz] at hcell
    exact ⟨hcell.symm ▸ rfl, h⟩
  · exact ⟨by simp only [resPopPure, if_neg h1, if_pos h3], h⟩
  · exact ⟨by simp only [resPopPure, if_neg h1, if_neg h3, if_pos h4], h⟩
  · have hpure : resPopPure zone = ((zone - RZB).tdiv 9).tmod 4 * 8 + 16 := by
      simp only [resPopPure, if_neg h1, if_neg h3, if_neg h4]
    refine ⟨hpure.symm, ?_⟩
    intro i hi
    refine ⟨?_, (h i hi).2.1, (h i hi).2.2⟩
    by_cases hij : i = (zone - RESBASE).toNat
    · right
      have hz : RESBASE + ((i : Int)) = zone := by omega
      have hgoal : (if i = (zone - RESBASE).toNat then ((zone - RZB).tdiv 9).tmod 4 * 8 + 16
          else s.res i) = resPopPure (RESBASE + (i : Int)) := by
        rw [if_pos hij, hz, hpure]
      exact hgoal
    · simpa only [if_neg hij] using (h i hi).1
  · have hpure : resPopPure zone = ((zone - RZB).tdiv 9).tmod 4 * 8 + 16 := by
      simp only [resPopPure, if_neg h1, if_neg h3, if_neg h4]
    exact ⟨hpure.symm, h⟩

theorem calcComPop_spec (zone : Int) (s : PopCaches) (h : CacheInv s) :
    (calcComPop zone s).1 = comPopPure zone ∧ CacheInv (calcComPop zone s).2 := by
  unfold calcComPop
  split_ifs with h1 h2 h3 h4 h5 h6
  · exact ⟨by simp only [comPopPure, if_pos h1], h⟩
  · exact ⟨by simp only [comPopPure, if_neg h1, if_pos h2], h⟩
  · have hi : (zone - RESBASE).toNat < 512 := by omega
    have hz : RESBASE + ((zone - RESBASE).toNat : Int) = zone := by omega
    have hcell := ((h _ hi).2.1).resolve_left h3.2.2.2
    rw [hz] at hcell
    exact ⟨hcell.symm ▸ rfl, h⟩
  · exact ⟨by simp only [comPopPure, if_neg h1, if_neg h2, if_pos h4], h⟩
  · exact ⟨by simp only [comPopPure, if_neg h1, if_neg h2, if_neg h4, if_pos h5], h⟩
  · have hpure : comPopPure zone = ((zone - COMBASE).tdiv 9).tmod 5 + 1 := by
      simp only [comPopPure, if_neg h1, if_neg h2, if_neg h4, if_neg h5]
    refine ⟨hpure.symm, ?_⟩
    intro i hi
    refine ⟨(h i hi).1, ?_, (h i hi).2.2⟩
    by_cases hij : i = (zone - RESBASE).toNat
    · right
      have hz : RESBASE + ((i : Int)) = zone := by omega
      have hgoal : (if i = (zone - RESBASE).toNat then ((zone - COMBASE).tdiv 9).tmod 5 + 1
          else s.com i) = comPopPure (RESBASE + (i : Int)) := by
        rw [if_pos hij, hz, hpure]
      exact hgoal
    · simpa only [if_neg hij] using (h i hi).2.1
  · have hpure : comPopPure zone = ((zone - COMBASE).tdiv 9).tmod 5 + 1 := by
      simp only [comPopPure, if_neg h1, if_neg h2, if_neg h4, if_neg h5]
    exact ⟨hpure.symm, h⟩

theorem calcIndPop_spec (zone : Int) (s : PopCaches) (h : CacheInv s) :
    (calcIndPop zone s).1 = indPopPure zone ∧ CacheInv (calcIndPop zone s).2 := by
  unfold calcIndPop
  split_ifs with h1 h2 h3 h4 h5 h6
  · exact ⟨by simp only [indPopPure, if_pos h1], h⟩
  · exact ⟨by simp only [indPopPure, if_neg h1, if_pos h2], h⟩
  · have hi : (zone - RESBASE).toNat < 512 := by omega
    have hz : RESBASE + ((zone - RESBASE).toNat : Int) = zone := by omega
    have hcell := ((h _ hi).2.2).resolve_left h3.2.2.2
    rw [hz] at hcell
    exact ⟨hcell.symm ▸ rfl, h⟩
  · exact ⟨by simp only [indPopPure, if_neg h1, if_neg h2, if_pos h4], h⟩
  · exact ⟨by simp only [indPopPure, if_neg h1, if_neg h2, if_neg h4, if_pos h5], h⟩
  · have hpure : indPopPure zone = ((zone - INDBASE).tdiv 9).tmod 4 + 1 := by
      simp only [indPopPure, if_neg h1, if_neg h2, if_neg h4, if_neg h5]
    refine ⟨hpure.symm, ?_⟩
    intro i hi
    refine ⟨(h i hi).1, (h i hi).2.1, ?_⟩
    by_cases hij : i = (zone - RESBASE).toNat
    · right
      have hz : RESBASE + ((i : Int)) = zone := by omega
      have hgoal : (if i = (zone - RESBASE).toNat then ((zone - INDBASE).tdiv 9).tmod 4 + 1
          else s.ind i) = indPopPure (RESBASE + (i : Int)) := by
        rw [if_pos hij, hz, hpure]
      exact hgoal
    · simpa only [if_neg hij] using (h i hi).2.2
  · have hpure : indPopPure zone = ((zone - INDBASE).tdiv 9).tmod 4 + 1 := by
      simp only [indPopPure, if_neg h1, if_neg h2, if_neg h4, if_neg h5]
    exact ⟨hpure.symm, h⟩

theorem resPopPure_range (zone : Int) :
    0 ≤ resPopPure zone ∧ resPopPure zone ≤ 1000 := by
  unfold resPopPure
  split_ifs with h1 h2 h3 <;> omega

theorem comPopPure_range (zone : Int) :
    0 ≤ comPopPure zone ∧ comPopPure zone ≤ 100 := by
  unfold comPopPure
  split_ifs with h1 h2 h3 h4 <;> omega

theorem indPopPure_range (zone : Int) :
    0 ≤ indPopPure zone ∧ indPopPure zone ≤ 50 := by
  unfold indPopPure
  split_ifs with h1 h2 h3 h4 <;> omega

theorem resPop_tmod_range (c : Int) (hc : RZB ≤ c) :
    0 ≤ ((c - RZB).tdiv 9).tmod 4 ∧ ((c - RZB).tdiv 9).tmod 4 < 4 := by
  have e2 : RZB = (265 : Int) := rfl
  have hd : 0 ≤ (c - RZB).tdiv 9 := Int.tdiv_nonneg (by omega) (by norm_num)
  exact ⟨Int.tmod_nonneg _ hd, Int.tmod_lt_of_pos _ (by norm_num)⟩

theorem resPopPure_eq_of (c : Int) (h1 : RZB ≤ c) (h2 : c ≤ LASTZONE) :
    resPopPure c = ((c - RZB).tdiv 9).tmod 4 * 8 + 16 := by
  obtain ⟨hm0, hm4⟩ := resPop_tmod_range c h1
  have e1 : RESBASE = (240 : Int) := rfl
  have e2 : RZB = (265 : Int) := rfl
  have e3 : LASTZONE = (826 : Int) := rfl
  unfold resPopPure
  rw [if_neg (by omega), if_neg (by omega), if_neg (by omega)]

/-- C2: for every tile code `c`, each of `calcResPop`, `calcComPop` and
`calcIndPop` returns the same value when called twice in succession with
the same `c` (purity despite the internal caches — the cache-coherence
invariant `CacheInv` holds for the initial all-zero caches and is
preserved by every call; codes whose key falls outside the 512-entry
capacity take the uncached path), and the result lies within `[0, 1000]`
for residential, `[0, 100]` for commercial and `[0, 50]` for
industrial. -/
theorem claim_c2_pop_pure_clamped (c : Int) (s : PopCaches) (h : CacheInv s) :
    (calcResPop c s).1 = (calcResPop c (calcResPop c s).2).1 ∧
    0 ≤ (calcResPop c s).1 ∧ (calcResPop c s).1 ≤ 1000 ∧
    (calcComPop c s).1 = (calcComPop c (calcComPop c s).2).1 ∧
    0 ≤ (calcComPop c s).1 ∧ (calcComPop c s).1 ≤ 100 ∧
    (calcIndPop c s).1 = (calcIndPop c (calcIndPop c s).2).1 ∧
    0 ≤ (calcIndPop c s).1 ∧ (calcIndPop c s).1 ≤ 50 := by
  obtain ⟨hr1, hrI⟩ := calcResPop_spec c s h
  obtain ⟨hr2, _⟩ := calcResPop_spec c (calcResPop c s).2 hrI
  obtain ⟨hc1, hcI⟩ := calcComPop_spec c s h
  obtain ⟨hc2, _⟩ := calcComPop_spec c (calcComPop c s).2 hcI
  obtain ⟨hi1, hiI⟩ := calcIndPop_spec c s h
  obtain ⟨hi2, _⟩ := calcIndPop_spec c (calcIndPop c s).2 hiI
  obtain ⟨ra, rb⟩ := resPopPure_range c
  obtain ⟨ca, cb⟩ := comPopPure_range c
  obtain ⟨ia, ib⟩ := indPopPure_range c
  rw [hr1, hr2, hc1, hc2, hi1, hi2]
  exact ⟨rfl, ra, rb, rfl, ca, cb, rfl, ia, ib⟩

theorem claim_c2_pop_pure_clamped_witness :
    CacheInv initCaches ∧
    ((calcResPop 265 initCaches).1 =
        (calcResPop 265 (calcResPop 265 initCaches).2).1 ∧
      0 ≤ (calcResPop 265 initCaches).1 ∧ (calcResPop 265 initCaches).1 ≤ 1000 ∧
      (calcComPop 265 initCaches).1 =
        (calcComPop 265 (calcComPop 265 initCaches).2).1 ∧
      0 ≤ (calcComPop 265 initCaches).1 ∧ (calcComPop 265 initCaches).1 ≤ 100 ∧
      (calcIndPop 265 initCaches).1 =
        (calcIndPop 265 (calcIndPop 265 initCaches).2).1 ∧
      0 ≤ (calcIndPop 265 initCaches).1 ∧ (calcIndPop 265 initCaches).1 ≤ 50) :=
  ⟨cacheInv_init, claim_c2_pop_pure_clamped 265 initCaches cacheInv_init⟩

/-- C10: for every input code, `calcResPop` returns a value in
`{0, 16, 24, 32, 40}`: codes below `RZB` or above the accepted span yield
0, codes in `[RZB, LASTZONE]` yield `(((code - RZB) / 9) mod 4) * 8 + 16`
(C truncated division), the result never exceeds 40 and is never strictly
between 0 and 16. -/
theorem claim_c10_resPop_value_set (c : Int) (s : PopCaches) (h : CacheInv s) :
    ((calcResPop c s).1 = 0 ∨ (calcResPop c s).1 = 16 ∨ (calcResPop c s).1 = 24 ∨
      (calcResPop c s).1 = 32 ∨ (calcResPop c s).1 = 40) ∧
    (calcResPop c s).1 ≤ 40 ∧
    ¬(0 < (calcResPop c s).1 ∧ (calcResPop c s).1 < 16) ∧
    ((c < RZB ∨ c > LASTZONE) → (calcResPop c s).1 = 0) ∧
    (RZB ≤ c → c ≤ LASTZONE →
      (calcResPop c s).1 = ((c - RZB).tdiv 9).tmod 4 * 8 + 16) := by
  obtain ⟨hv, _⟩ := calcResPop_spec c s h
  rw [hv]
  have e1 : RESBASE = (240 : Int) := rfl
  have e2 : RZB = (265 : Int) := rfl
  have e3 : LASTZONE = (826 : Int) := rfl
  by_cases hlo : RZB ≤ c ∧ c ≤ LASTZONE
  · have heq := resPopPure_eq_of c hlo.1 hlo.2
    obtain ⟨hm0, hm4⟩ := resPop_tmod_range c hlo.1
    rw [heq]
    exact ⟨by omega, by omega, by omega, fun hcon => by omega, fun _ _ => rfl⟩
  · have heq : resPopPure c = 0 := by
      unfold resPopPure
      rcases not_and_or.mp hlo with hc | hc
      · push_neg at hc
        by_cases hg : c < RESBASE ∨ c > LASTZONE
        · rw [if_pos hg]
        · rw [if_neg hg, if_pos (Or.inl hc)]
      · push_neg at hc
        rw [if_pos (Or.inr hc)]
    rw [heq]
    exact ⟨Or.inl rfl, by omega, by omega, fun _ => rfl,
      fun hge hle => absurd ⟨hge, hle⟩ hlo⟩

theorem claim_c10_resPop_value_set_witness :
    CacheInv initCaches ∧
    (((calcResPop 274 initCaches).1 = 0 ∨ (calcResPop 274 initCaches).1 = 16 ∨
        (calcResPop 274 initCaches).1 = 24 ∨ (calcResPop 274 initCaches).1 = 32 ∨
        (calcResPop 274 initCaches).1 = 40) ∧
      (calcResPop 274 initCaches).1 ≤ 40 ∧
      ¬(0 < (calcResPop 274 initCaches).1 ∧ (calcResPop 274 initCaches).1 < 16) ∧
      (((274 : Int) < RZB ∨ (274 : Int) > LASTZONE) → (calcResPop 274 initCaches).1 = 0) ∧
      (RZB ≤ (274 : Int) → (274 : Int) ≤ LASTZONE →
        (calcResPop 274 initCaches).1 =
          (((274 : Int) - RZB).tdiv 9).tmod 4 * 8 + 16)) :=
  ⟨cacheInv_init, claim_c10_resPop_value_set 274 initCaches cacheInv_init⟩

/-! ### Land desirability evaluator (GetCRVal / EvalRes / EvalInd,
zone.c lines 700-709, 1085-1100, 1112-1115).

`GetCRVal` reads `LandValueMem` and `PollutionMem` at the coarse
coordinate; those externally owned grid cells are the two parameters
here. -/

/-- `GetCRVal` (zone.c lines 700-709): land-value tier from the coarse
land-value and pollution grid cells. -/
def getCRVal (landValue pollution : Int) : Int :=
  if landValue - pollution < 30 then 0
  else if landValue - pollution < 80 then 1
  else if landValue - pollution < 150 then 2
  else 3

/-- `EvalRes` (zone.c lines 1085-1100): residential desirability score;
`traf` is the traffic result handed in by the caller. -/
def evalRes (traf landValue pollution : Int) : Int :=
  if traf < 0 then -3000
  else
    let v := landValue - pollution
    let v2 := if v < 0 then 0 else v * 32
    let v3 := if v2 > 6000 then 6000 else v2
    v3 - 3000

/-- `EvalInd` (zone.c lines 1112-1115): industrial desirability. -/
def evalInd (traf : Int) : Int :=
  if traf < 0 then -1000 else 0

theorem getCRVal_mem (landValue pollution : Int) :
    getCRVal landValue pollution = 0 ∨ getCRVal landValue pollution = 1 ∨
    getCRVal landValue pollution = 2 ∨ getCRVal landValue pollution = 3 := by
  unfold getCRVal
  split_ifs <;> simp

theorem getCRVal_nonneg (landValue pollution : Int) :
    0 ≤ getCRVal landValue pollution := by
  rcases getCRVal_mem landValue pollution with h | h | h | h <;> omega

/-- C5: `GetCRVal` buckets `value - pollution` by the thresholds
30 / 80 / 150 into tiers 0-3; the result is always in `{0,1,2,3}` and is
monotonic non-decreasing in `value - pollution`. -/
theorem claim_c5_getCRVal_tiers (v1 p1 v2 p2 : Int)
    (hle : v1 - p1 ≤ v2 - p2) :
    getCRVal v1 p1 ≤ getCRVal v2 p2 ∧
    (getCRVal v1 p1 = 0 ∨ getCRVal v1 p1 = 1 ∨
      getCRVal v1 p1 = 2 ∨ getCRVal v1 p1 = 3) ∧
    (v1 - p1 < 30 → getCRVal v1 p1 = 0) ∧
    (30 ≤ v1 - p1 → v1 - p1 < 80 → getCRVal v1 p1 = 1) ∧
    (80 ≤ v1 - p1 → v1 - p1 < 150 → getCRVal v1 p1 = 2) ∧
    (150 ≤ v1 - p1 → getCRVal v1 p1 = 3) := by
  refine ⟨?_, getCRVal_mem v1 p1, ?_, ?_, ?_, ?_⟩ <;>
    unfold getCRVal <;> split_ifs <;> omega

theorem claim_c5_getCRVal_tiers_witness :
    getCRVal 100 10 ≤ getCRVal 200 10 ∧
    (getCRVal 100 10 = 0 ∨ getCRVal 100 10 = 1 ∨
      getCRVal 100 10 = 2 ∨ getCRVal 100 10 = 3) ∧
    ((100 : Int) - 10 < 30 → getCRVal 100 10 = 0) ∧
    (30 ≤ (100 : Int) - 10 → (100 : Int) - 10 < 80 → getCRVal 100 10 = 1) ∧
    (80 ≤ (100 : Int) - 10 → (100 : Int) - 10 < 150 → getCRVal 100 10 = 2) ∧
    (150 ≤ (100 : Int) - 10 → getCRVal 100 10 = 3) :=
  claim_c5_getCRVal_tiers 100 10 200 10 (by norm_num)

/-! ### Zone lifecycle dispatch (DoResidential / DoIndustrial, zone.c
lines 598-697 and 453-528).

The 8th-tick growth/decline branch of each handler is embedded as a
dispatch function that records which handler the code routes to and with
which arguments.  `cell` is the packed map cell `Map[y][x]`, `tpop` the
running-population snapshot taken before the branch, `landValue` and
`pollution` the coarse grid cells `GetCRVal`/`EvalRes` read. -/

/-- Which handler the 8th-tick residential branch invokes. -/
inductive ResAction where
  | none : ResAction
  | out (pop value : Int) : ResAction
  | grow (pop value : Int) : ResAction
deriving DecidableEq

/-- The decision structure of `DoResidential` (zone.c lines 598-697):
entry guard on `ZONEBIT`, the 8th-tick gate, the `GetCRVal < 0` decline
branch, the forced decline of unpowered zones at desirability -500, and
the `EvalRes`-driven growth/decline choice (growth passes the land-value
tier, not the score). -/
def resDispatch (cityTime cell : Nat) (tpop landValue pollution : Int) :
    ResAction :=
  if cell &&& ZONEBIT = 0 then .none
  else if cityTime &&& 7 ≠ 0 then .none
  else if getCRVal landValue pollution < 0 then
    .out tpop (getCRVal landValue pollution)
  else if cell &&& POWERBIT = 0 then .out tpop (-500)
  else if evalRes 1 landValue pollution > 0 then
    .grow tpop (getCRVal landValue pollution)
  else if evalRes 1 landValue pollution < 0 then
    .out tpop (evalRes 1 landValue pollution)
  else .none

/-- C1: an unpowered residential zone-center tile visited on an 8th tick
is always routed to the decline handler with desirability forced to
-500, whatever the land-value tier; the growth handler is not invoked on
that visit. -/
theorem claim_c1_unpowered_res_forced_decline
    (cityTime cell : Nat) (tpop landValue pollution : Int)
    (hzone : cell &&& ZONEBIT ≠ 0) (hpow : cell &&& POWERBIT = 0)
    (htick : cityTime &&& 7 = 0) :
    resDispatch cityTime cell tpop landValue pollution = .out tpop (-500) := by
  have hcr := getCRVal_nonneg landValue pollution
  unfold resDispatch
  rw [if_neg hzone, if_neg (by simp [htick]), if_neg (by omega), if_pos hpow]

theorem claim_c1_unpowered_res_forced_decline_witness :
    (0x0400 : Nat) &&& ZONEBIT ≠ 0 ∧ (0x0400 : Nat) &&& POWERBIT = 0 ∧
    (8 : Nat) &&& 7 = 0 ∧
    resDispatch 8 0x0400 3 250 0 = .out 3 (-500) :=
  ⟨by decide, by decide, by decide,
    claim_c1_unpowered_res_forced_decline 8 0x0400 3 250 0
      (by decide) (by decide) (by decide)⟩

/-- Which handler the 8th-tick industrial branch invokes. -/
inductive IndAction where
  | none : IndAction
  | out (pop : Int) : IndAction
  | grow (pop value : Int) : IndAction
deriving DecidableEq

/-- Discriminator for the decline constructor of `IndAction`. -/
def IndAction.isOut : IndAction → Bool
  | .out _ => true
  | _ => false

/-- The decision structure of `DoIndustrial`'s 8th-tick branch (zone.c
lines 453-528): `GetCRVal < 0` routes to decline, otherwise
`EvalInd 1` positive routes to growth and negative to decline. -/
def indDispatch (cityTime cell : Nat) (tpop landValue pollution : Int) :
    IndAction :=
  if cell &&& ZONEBIT = 0 then .none
  else if cityTime &&& 7 ≠ 0 then .none
  else if getCRVal landValue pollution < 0 then .out tpop
  else if evalInd 1 > 0 then .grow tpop (evalInd 1)
  else if evalInd 1 < 0 then .out tpop
  else .none

/-- C9 (implicit): `DoIndustrial` never routes to the industrial decline
handler: the first decline branch needs `GetCRVal < 0`, but `GetCRVal`
only returns 0..3, and the second needs `EvalInd 1 < 0`, but
`EvalInd` of a non-negative argument is 0. -/
theorem claim_c9_indOut_never_called
    (cityTime cell : Nat) (tpop landValue pollution : Int) :
    (indDispatch cityTime cell tpop landValue pollution).isOut = false := by
  have hcr := getCRVal_nonneg landValue pollution
  unfold indDispatch
  split_ifs with h1 h2 h3 h4 h5
  · rfl
  · rfl
  · omega
  · simp [evalInd] at h4
  · simp [evalInd] at h5
  · rfl

/-! ### Tile grid, random source and map-write primitives.

The tile grid `Map[y][x]` is a total function from (row, column) to the
packed 16-bit cell; the shared pseudo-random source is a stream of
naturals consumed head-first, mirroring successive `rand()` draws of
`ZoneRandom`. -/

abbrev Grid := Int → Int → Nat

/-- Pointwise grid update at column `x`, row `y`. -/
def updGrid (g : Grid) (x y : Int) (v : Nat) : Grid :=
  fun yy xx => if yy = y ∧ xx = x then v else g yy xx

/-- The shared pseudo-random stream (`rand()` behind `ZoneRandom`). -/
structure RNG where
  seq : Nat → Nat

/-- `ZoneRandom` (zone.c lines 203-205): uniform draw in `[0, range)`,
consuming one stream element. -/
def zoneRandom (range : Nat) (r : RNG) : Nat × RNG :=
  (r.seq 0 % range, ⟨fun n => r.seq (n + 1)⟩)

/-- Modelled from the spec: `setMapTile` lives in the missing tiles.c.
Per the spec's tile-write contract it stores the tile code in the low
bits together with the given flag bits; `TILE_SET_PRESERVE` keeps the
externally computed power flag of the old cell. -/
def setMapTile (g : Grid) (x y : Int) (tile : Int) (flags : Nat) : Grid :=
  updGrid g x y ((tile.toNat &&& LOMASK) ||| flags ||| (g y x &&& POWERBIT))

/-- Modelled from the spec: `UpgradeTile` (missing tiles.c) replaces the
tile code of a cell, preserving its flag bits. -/
def upgradeTile (g : Grid) (x y : Int) (tile : Int) : Grid :=
  updGrid g x y ((tile.toNat &&& LOMASK) ||| (g y x &&& (0xFFFF - LOMASK)))

/-- Modelled from the spec: `SetRubbleTile` (missing tiles.c) turns the
cell into a bulldozable rubble tile. -/
def setRubbleTile (g : Grid) (x y : Int) : Grid :=
  updGrid g x y (RUBBLE.toNat ||| BULLBIT)

theorem updGrid_same (g : Grid) (x y : Int) (v : Nat) :
    updGrid g x y v y x = v := by
  simp [updGrid]

theorem updGrid_other (g : Grid) (x y a b : Int) (v : Nat)
    (h : ¬(b = y ∧ a = x)) : updGrid g x y v b a = g b a := by
  simp only [updGrid, if_neg h]

/-! ### ZoneStamper (ZonePlop, zone.c lines 1023-1082). -/

/-- One iteration of `ZonePlop`'s 3×3 surround loop for offset
`(dx, dy)` (zone.c lines 1051-1079): bounds check, skip the center,
skip road/rail tiles, require `BULLBIT`, then write
`base + BSIZE + ZoneRandom(2)` with the structural flags unless the
computed code is out of range. -/
def zpStep (base xpos ypos : Int) (s : Grid × RNG) (p : Int × Int) :
    Grid × RNG :=
  let x := xpos + p.1
  let y := ypos + p.2
  if 0 ≤ x ∧ x < WORLD_X ∧ 0 ≤ y ∧ y < WORLD_Y then
    if ¬(p.1 = 0 ∧ p.2 = 0) then
      if ((s.1 y x &&& LOMASK : Nat) : Int) < ROADS ∨
         ((s.1 y x &&& LOMASK : Nat) : Int) > LASTRAIL then
        if s.1 y x &&& BULLBIT ≠ 0 then
          let d := zoneRandom 2 s.2
          if base + BSIZE + (d.1 : Int) < 0 ∨
             base + BSIZE + (d.1 : Int) > LASTZONE then (s.1, d.2)
          else
            (setMapTile s.1 x y (base + BSIZE + (d.1 : Int))
              (CONDBIT ||| BURNBIT ||| BULLBIT), d.2)
        else s
      else s
    else s
  else s

/-- The fixed (dx, dy) visit order of `ZonePlop`'s double loop
(dy outer from -1 to 1, dx inner from -1 to 1). -/
def zpPairs : List (Int × Int) :=
  [(-1, -1), (0, -1), (1, -1), (-1, 0), (0, 0), (1, 0), (-1, 1), (0, 1), (1, 1)]

/-- `ZonePlop` (zone.c lines 1023-1082): bounds check, bulldozability
check on the center, range check on `base`, then the center write with
`BNCNBIT ||| CONDBIT ||| BURNBIT ||| BULLBIT` followed by the 3×3
surround loop.  Returns the C result (1 success / 0 failure), the new
grid and the advanced random stream. -/
def zonePlop (xpos ypos base : Int) (g : Grid) (r : RNG) :
    Int × Grid × RNG :=
  if ¬(0 ≤ xpos ∧ xpos < WORLD_X ∧ 0 ≤ ypos ∧ ypos < WORLD_Y) then (0, g, r)
  else if g ypos xpos &&& BULLBIT = 0 then (0, g, r)
  else if base < RESBASE ∨ base > LASTZONE then (0, g, r)
  else
    let g1 := setMapTile g xpos ypos base
      (BNCNBIT ||| CONDBIT ||| BURNBIT ||| BULLBIT)
    let s := zpPairs.foldl (zpStep base xpos ypos) (g1, r)
    (1, s.1, s.2)

theorem zpStep_center (base xpos ypos : Int) (s : Grid × RNG)
    (p : Int × Int) :
    (zpStep base xpos ypos s p).1 ypos xpos = s.1 ypos xpos := by
  simp only [zpStep]
  split_ifs with h1 h2 h3 h4 h5
  any_goals rfl
  show setMapTile s.1 (xpos + p.1) (ypos + p.2) _ _ ypos xpos = s.1 ypos xpos
  simp only [setMapTile]
  exact updGrid_other _ _ _ _ _ _ (fun hh => h2 ⟨by omega, by omega⟩)

theorem zpLoop_center (base xpos ypos : Int) :
    ∀ (l : List (Int × Int)) (s : Grid × RNG),
      (l.foldl (zpStep base xpos ypos) s).1 ypos xpos = s.1 ypos xpos := by
  intro l
  induction l with
  | nil => intro s; rfl
  | cons p t ih =>
    intro s
    rw [List.foldl_cons, ih]
    exact zpStep_center base xpos ypos s p

theorem nat_or_and_zonebit (w p : Nat) :
    ((w &&& LOMASK) ||| (BNCNBIT ||| CONDBIT ||| BURNBIT ||| BULLBIT) |||
      (p &&& POWERBIT)) &&& ZONEBIT ≠ 0 := by
  have hZ : (ZONEBIT : Nat).testBit 10 = true := by decide
  have hB : (BNCNBIT ||| CONDBIT ||| BURNBIT ||| BULLBIT : Nat).testBit 10 = true := by
    decide
  intro h0
  have h10 := congrArg (fun n => Nat.testBit n 10) h0
  simp only [Nat.testBit_and, Nat.testBit_or, hZ, hB, Nat.zero_testBit,
    Bool.or_true, Bool.true_or, Bool.and_true] at h10
  exact Bool.noConfusion h10

/-- C3: `ZonePlop` with an in-bounds center whose cell carries `BULLBIT`
and a base code inside the legal span reports success and sets the
zone-center marker bit on the center tile; with a non-bulldozable
center, an out-of-bounds coordinate or an out-of-range base it reports
failure (0) and returns the grid unchanged. -/
theorem claim_c3_zonePlop_center_marker_and_failure :
    (∀ (xpos ypos base : Int) (g : Grid) (r : RNG),
      0 ≤ xpos → xpos < WORLD_X → 0 ≤ ypos → ypos < WORLD_Y →
      g ypos xpos &&& BULLBIT ≠ 0 → RESBASE ≤ base → base ≤ LASTZONE →
      (zonePlop xpos ypos base g r).1 = 1 ∧
      (zonePlop xpos ypos base g r).2.1 ypos xpos &&& ZONEBIT ≠ 0) ∧
    (∀ (xpos ypos base : Int) (g : Grid) (r : RNG),
      (¬(0 ≤ xpos ∧ xpos < WORLD_X ∧ 0 ≤ ypos ∧ ypos < WORLD_Y) ∨
        g ypos xpos &&& BULLBIT = 0 ∨ base < RESBASE ∨ base > LASTZONE) →
      (zonePlop xpos ypos base g r).1 = 0 ∧
      (zonePlop xpos ypos base g r).2.1 = g) := by
  constructor
  · intro xpos ypos base g r hx1 hx2 hy1 hy2 hbull hb1 hb2
    have e1 : RESBASE = (240 : Int) := rfl
    have e2 : LASTZONE = (826 : Int) := rfl
    unfold zonePlop
    rw [if_neg (by push_neg; exact ⟨hx1, hx2, hy1, hy2⟩), if_neg hbull,
      if_neg (by omega)]
    refine ⟨rfl, ?_⟩
    have hcenter := zpLoop_center base xpos ypos zpPairs
      (setMapTile g xpos ypos base (BNCNBIT ||| CONDBIT ||| BURNBIT ||| BULLBIT), r)
    simp only at hcenter ⊢
    rw [hcenter]
    simp only [setMapTile, updGrid_same]
    exact nat_or_and_zonebit _ _
  · intro xpos ypos base g r hfail
    unfold zonePlop
    by_cases h1 : ¬(0 ≤ xpos ∧ xpos < WORLD_X ∧ 0 ≤ ypos ∧ ypos < WORLD_Y)
    · rw [if_pos h1]; exact ⟨rfl, rfl⟩
    · rw [if_neg h1]
      by_cases h2 : g ypos xpos &&& BULLBIT = 0
      · rw [if_pos h2]; exact ⟨rfl, rfl⟩
      · rw [if_neg h2]
        have h3 : base < RESBASE ∨ base > LASTZONE := by
          rcases hfail with h | h | h | h
          · exact absurd h h1
          · exact absurd h h2
          · exact Or.inl h
          · exact Or.inr h
        rw [if_pos h3]
        exact ⟨rfl, rfl⟩

theorem claim_c3_zonePlop_witness :
    ((0 : Int) ≤ 5 ∧ (5 : Int) < WORLD_X ∧ (0 : Int) ≤ 6 ∧ (6 : Int) < WORLD_Y ∧
      (fun (_ _ : Int) => BULLBIT : Grid) 6 5 &&& BULLBIT ≠ 0 ∧
      RESBASE ≤ (244 : Int) ∧ (244 : Int) ≤ LASTZONE ∧
      (zonePlop 5 6 244 (fun _ _ => BULLBIT) ⟨fun _ => 0⟩).1 = 1 ∧
      (zonePlop 5 6 244 (fun _ _ => BULLBIT) ⟨fun _ => 0⟩).2.1 6 5 &&& ZONEBIT ≠ 0) ∧
    ((fun (_ _ : Int) => (0 : Nat) : Grid) 6 5 &&& BULLBIT = 0 ∧
      (zonePlop 5 6 244 (fun _ _ => (0 : Nat)) ⟨fun _ => 0⟩).1 = 0 ∧
      (zonePlop 5 6 244 (fun _ _ => (0 : Nat)) ⟨fun _ => 0⟩).2.1 = fun _ _ => (0 : Nat)) := by
  refine ⟨⟨by norm_num, by decide, by norm_num, by decide, by decide, by decide, by decide, ?_, ?_⟩,
    by decide, ?_, ?_⟩
  · exact (claim_c3_zonePlop_center_marker_and_failure.1 5 6 244 _ _
      (by norm_num) (by decide) (by norm_num) (by decide) (by decide) (by decide)
      (by decide)).1
  · exact (claim_c3_zonePlop_center_marker_and_failure.1 5 6 244 _ _
      (by norm_num) (by decide) (by norm_num) (by decide) (by decide) (by decide)
      (by decide)).2
  · exact (claim_c3_zonePlop_center_marker_and_failure.2 5 6 244 _ _
      (Or.inr (Or.inl (by decide)))).1
  · exact (claim_c3_zonePlop_center_marker_and_failure.2 5 6 244 _ _
      (Or.inr (Or.inl (by decide)))).2

/-! ### Decline handlers (DoResOut / DoComOut / DoIndOut, zone.c
lines 779-871). -/

/-- `DoResOut` (zone.c lines 779-839): guarded by `ZONEBIT` and the
residential center-alignment check `(tile - RZB) % 9 == 0`; decays one
combined (value, density) step — always when `pop > 16`, with
probability 1/4 otherwise — and may ruin a near-`FREEZ` tile to rubble
under the compound random check. -/
def doResOut (pop value x y : Int) (g : Grid) (r : RNG) : Grid × RNG :=
  if g y x &&& ZONEBIT = 0 then (g, r)
  else if (((g y x &&& LOMASK : Nat) : Int) - RZB).tmod 9 ≠ 0 then (g, r)
  else
    let originalTile : Int := ((g y x &&& LOMASK : Nat) : Int)
    let newTile : Int := ((originalTile - RZB).tdiv 9 - 1) * 9 + RZB
    let s1 : Grid × RNG :=
      if pop > 16 then
        if (originalTile - RZB).tdiv 9 > 0 then
          if RESBASE ≤ newTile ∧ newTile < COMBASE ∧
             (newTile - RZB).tmod 9 = 0 then
            (upgradeTile g x y newTile, r)
          else (g, r)
        else (g, r)
      else
        let d := zoneRandom 4 r
        if d.1 = 0 then
          if (originalTile - RZB).tdiv 9 > 0 then
            if RESBASE ≤ newTile ∧ newTile < COMBASE ∧
               (newTile - RZB).tmod 9 = 0 then
              (upgradeTile g x y newTile, d.2)
            else (g, d.2)
          else (g, d.2)
        else (g, d.2)
    if originalTile ≤ FREEZ + 18 ∧ value < 30 ∧ pop = 0 then
      let d2 := zoneRandom 4 s1.2
      if d2.1 = 0 then
        let d3 := zoneRandom 2 d2.2
        if d3.1 = 0 then (setRubbleTile s1.1 x y, d3.2)
        else (s1.1, d3.2)
      else (s1.1, d2.2)
    else s1

/-- `DoComOut` (zone.c lines 842-855): no-op when the code equals
`COMBASE`; for any code above `COMBASE`, decays one step with
probability 1/8 — with no commercial center-alignment check. -/
def doComOut (pop x y : Int) (g : Grid) (r : RNG) : Grid × RNG :=
  if ((g y x &&& LOMASK : Nat) : Int) - COMBASE = 0 then (g, r)
  else if ((g y x &&& LOMASK : Nat) : Int) - COMBASE > 0 then
    let d := zoneRandom 8 r
    if d.1 = 0 then
      (upgradeTile g x y
        (COMBASE + (((g y x &&& LOMASK : Nat) : Int) - COMBASE) - 1), d.2)
    else (g, d.2)
  else (g, r)

/-- `DoIndOut` (zone.c lines 858-871): as `DoComOut` but against
`INDBASE` and writing through `setMapTile` with no extra flags. -/
def doIndOut (pop x y : Int) (g : Grid) (r : RNG) : Grid × RNG :=
  if ((g y x &&& LOMASK : Nat) : Int) - INDBASE = 0 then (g, r)
  else if ((g y x &&& LOMASK : Nat) : Int) - INDBASE > 0 then
    let d := zoneRandom 8 r
    if d.1 = 0 then
      (setMapTile g x y
        (INDBASE + (((g y x &&& LOMASK : Nat) : Int) - INDBASE) - 1) 0, d.2)
    else (g, d.2)
  else (g, r)

/-- C6 counterexample: tile code 428 is not a valid commercial zone
center (`(428 - CZB) mod 9 = -8 ≠ 0` in C truncated semantics), yet
`DoComOut` mutates the cell when the random draw is 0 — refuting the
claim that the commercial decline handler performs no mutation on
invalid centers. -/
theorem claim_c6_counterexample_comOut_mutates :
    ((((428 : Nat) &&& LOMASK : Nat) : Int) - CZB).tmod 9 ≠ 0 ∧
    (doComOut 0 5 5 (fun _ _ => 428) ⟨fun _ => 0⟩).1 5 5 ≠ (428 : Nat) := by
  decide

/-- C6 (amended): `DoResOut` performs no grid mutation when the tile
code is not a valid residential center (`(code - RZB) mod 9 ≠ 0`);
`DoComOut` / `DoIndOut` check no center alignment — they are no-ops
exactly when the tile code is at or below the category base, and may
decay any code above it. -/
theorem claim_c6_amended_decline_guards :
    (∀ (pop value x y : Int) (g : Grid) (r : RNG),
      (((g y x &&& LOMASK : Nat) : Int) - RZB).tmod 9 ≠ 0 →
      (doResOut pop value x y g r).1 = g) ∧
    (∀ (pop x y : Int) (g : Grid) (r : RNG),
      ((g y x &&& LOMASK : Nat) : Int) ≤ COMBASE →
      (doComOut pop x y g r).1 = g) ∧
    (∀ (pop x y : Int) (g : Grid) (r : RNG),
      ((g y x &&& LOMASK : Nat) : Int) ≤ INDBASE →
      (doIndOut pop x y g r).1 = g) := by
  refine ⟨?_, ?_, ?_⟩
  · intro pop value x y g r h
    unfold doResOut
    by_cases h1 : g y x &&& ZONEBIT = 0
    · rw [if_pos h1]
    · rw [if_neg h1, if_pos h]
  · intro pop x y g r h
    unfold doComOut
    by_cases h1 : ((g y x &&& LOMASK : Nat) : Int) - COMBASE = 0
    · rw [if_pos h1]
    · rw [if_neg h1, if_neg (by omega)]
  · intro pop x y g r h
    unfold doIndOut
    by_cases h1 : ((g y x &&& LOMASK : Nat) : Int) - INDBASE = 0
    · rw [if_pos h1]
    · rw [if_neg h1, if_neg (by omega)]

theorem claim_c6_amended_decline_guards_witness :
    ((((0 : Nat) &&& LOMASK : Nat) : Int) - RZB).tmod 9 ≠ 0 ∧
    (doResOut 0 0 2 3 (fun _ _ => 0) ⟨fun _ => 0⟩).1 = (fun _ _ => (0 : Nat)) ∧
    (doComOut 0 2 3 (fun _ _ => 0) ⟨fun _ => 0⟩).1 = (fun _ _ => (0 : Nat)) ∧
    (doIndOut 0 2 3 (fun _ _ => 0) ⟨fun _ => 0⟩).1 = (fun _ _ => (0 : Nat)) :=
  ⟨by decide,
    claim_c6_amended_decline_guards.1 0 0 2 3 _ _ (by decide),
    claim_c6_amended_decline_guards.2.1 0 2 3 _ _ (by decide),
    claim_c6_amended_decline_guards.2.2 0 2 3 _ _ (by decide)⟩

/-! ### ResPlop (zone.c lines 903-955). -/

/-- The target tile `ResPlop` computes: `(((value * 4) + den) * 9) + RZB`
after the two value clamps (`value < 0 → 0`, `value > 3 → 3`) of zone.c
lines 924-925. -/
def resTarget (den value : Int) : Int :=
  (((if (if value < 0 then 0 else value) > 3 then 3
     else if value < 0 then 0 else value) * 4) + den) * 9 + RZB

/-- `ResPlop` (zone.c lines 903-955): rejects density outside `[-4, 4]`
and value outside `[0, 8]`, clamps value to `[0, 3]`, rejects a computed
code outside `[RESBASE, COMBASE)` or violating the center divisibility
invariant, and otherwise stamps via `ZonePlop`. -/
def resPlop (x y den value : Int) (g : Grid) (r : RNG) : Grid × RNG :=
  if den < -4 ∨ den > 4 then (g, r)
  else if value < 0 ∨ value > 8 then (g, r)
  else if resTarget den value < RESBASE ∨ resTarget den value ≥ COMBASE then
    (g, r)
  else if (resTarget den value - RZB).tmod 9 ≠ 0 then (g, r)
  else
    ((zonePlop x y (resTarget den value) g r).2.1,
     (zonePlop x y (resTarget den value) g r).2.2)

/-- C7 counterexample: value-tier 4 lies outside `[0, 3]`, yet
`ResPlop` does not return without writing — it clamps the tier to 3 and
stamps, changing the center cell. -/
theorem claim_c7_counterexample_resPlop_clamps :
    ¬((0 : Int) ≤ 4 ∧ (4 : Int) ≤ 3) ∧
    (resPlop 5 6 0 4 (fun _ _ => BULLBIT) ⟨fun _ => 0⟩).1 6 5 ≠
      (fun (_ _ : Int) => BULLBIT : Grid) 6 5 := by
  decide

/-- C7 (amended): `ResPlop` returns without writing any tile whenever the density is
outside `[-4, 4]`, or the value-tier is outside `[0, 8]` (tiers in
`(3, 8]` are clamped to 3 and stamped, not rejected), or the computed
code `(((clampedValue * 4) + density) * 9) + RZB` falls outside the
residential span; and every stamp it performs uses a code inside the
span satisfying `(code - RZB) mod 9 == 0`. -/
theorem claim_c7_amended_resPlop_guards :
    (∀ (x y den value : Int) (g : Grid) (r : RNG),
      (den < -4 ∨ den > 4) → resPlop x y den value g r = (g, r)) ∧
    (∀ (x y den value : Int) (g : Grid) (r : RNG),
      (value < 0 ∨ value > 8) → resPlop x y den value g r = (g, r)) ∧
    (∀ (x y den value : Int) (g : Grid) (r : RNG),
      (resTarget den value < RESBASE ∨ resTarget den value ≥ COMBASE) →
      resPlop x y den value g r = (g, r)) ∧
    (∀ (x y den value : Int) (g : Grid) (r : RNG),
      resPlop x y den value g r = (g, r) ∨
      (RESBASE ≤ resTarget den value ∧ resTarget den value < COMBASE ∧
        (resTarget den value - RZB).tmod 9 = 0 ∧
        resPlop x y den value g r =
          ((zonePlop x y (resTarget den value) g r).2.1,
           (zonePlop x y (resTarget den value) g r).2.2))) := by
  refine ⟨?_, ?_, ?_, ?_⟩
  · intro x y den value g r h
    unfold resPlop
    rw [if_pos h]
  · intro x y den value g r h
    unfold resPlop
    by_cases h1 : den < -4 ∨ den > 4
    · rw [if_pos h1]
    · rw [if_neg h1, if_pos h]
  · intro x y den value g r h
    unfold resPlop
    by_cases h1 : den < -4 ∨ den > 4
    · rw [if_pos h1]
    · rw [if_neg h1]
      by_cases h2 : value < 0 ∨ value > 8
      · rw [if_pos h2]
      · rw [if_neg h2, if_pos h]
  · intro x y den value g r
    unfold resPlop
    by_cases h1 : den < -4 ∨ den > 4
    · rw [if_pos h1]; exact Or.inl rfl
    · rw [if_neg h1]
      by_cases h2 : value < 0 ∨ value > 8
      · rw [if_pos h2]; exact Or.inl rfl
      · rw [if_neg h2]
        by_cases h3 : resTarget den value < RESBASE ∨ resTarget den value ≥ COMBASE
        · rw [if_pos h3]; exact Or.inl rfl
        · rw [if_neg h3]
          by_cases h4 : (resTarget den value - RZB).tmod 9 ≠ 0
          · rw [if_pos h4]; exact Or.inl rfl
          · rw [if_neg h4]
            push_neg at h3 h4
            exact Or.inr ⟨by omega, by omega, h4, rfl⟩

theorem claim_c7_amended_resPlop_guards_witness :
    ((9 : Int) > 4) ∧
    resPlop 0 0 9 0 (fun _ _ => 0) ⟨fun _ => 0⟩ =
      ((fun _ _ => (0 : Nat) : Grid), (⟨fun _ => 0⟩ : RNG)) ∧
    ((-1 : Int) < 0) ∧
    resPlop 0 0 0 (-1) (fun _ _ => 0) ⟨fun _ => 0⟩ =
      ((fun _ _ => (0 : Nat) : Grid), (⟨fun _ => 0⟩ : RNG)) :=
  ⟨by decide,
    claim_c7_amended_resPlop_guards.1 0 0 9 0 _ _ (Or.inr (by decide)),
    by decide,
    claim_c7_amended_resPlop_guards.2.1 0 0 0 (-1) _ _ (Or.inl (by decide))⟩

/-! ### Residential growth: EvalLot / BuildHouse / DoResIn (zone.c
lines 994-1020, 876-900, 712-748). -/

/-- `EvalLot` (zone.c lines 994-1020): score of a candidate house lot —
-1 out of bounds, 0 if residential-adjacent (`RESBASE..RESBASE+8`) or
not bare dirt, 1 for a suitable cell. -/
def evalLot (g : Grid) (x y : Int) : Int :=
  if x < 0 ∨ x ≥ WORLD_X ∨ y < 0 ∨ y ≥ WORLD_Y then -1
  else if RESBASE ≤ ((g y x &&& LOMASK : Nat) : Int) ∧
          ((g y x &&& LOMASK : Nat) : Int) ≤ RESBASE + 8 then 0
  else if ((g y x &&& LOMASK : Nat) : Int) ≠ DIRT then 0
  else 1

/-- The (xx, yy) visit order of `BuildHouse`'s neighbor loop
(yy outer from -1 to 1, xx inner, skipping (0, 0)). -/
def houseOffsets : List (Int × Int) :=
  [(-1, -1), (0, -1), (1, -1), (-1, 0), (1, 0), (-1, 1), (0, 1), (1, 1)]

/-- The best-lot score `z` that `BuildHouse` computes over the eight
neighbors (zone.c lines 882-894). -/
def buildHouseZ (g : Grid) (x y : Int) : Int :=
  houseOffsets.foldl (fun z p =>
    if evalLot g (x + p.1) (y + p.2) > z then evalLot g (x + p.1) (y + p.2)
    else z) 0

/-- `BuildHouse` (zone.c lines 876-900): computes the best neighbor
score, but its build branch (zone.c lines 897-899) contains only a
comment and performs no map write, so the grid is returned unchanged. -/
def buildHouse (g : Grid) (x y value : Int) : Grid :=
  let _z := buildHouseZ g x y
  g

/-- `DoResIn` (zone.c lines 712-748): residential growth — pollution
ceiling 128, hospital/church guard, then `BuildHouse` on a `FREEZ`
placeholder with population below 8 (or `ResPlop` upgrade at high
density), and a `ResPlop` stamp at density `(pop / 8) - 1` when the
tile is past the placeholder and population is below 40.  `pollution`
and `popDensity` are the coarse grid cells the function reads. -/
def doResIn (pop value x y : Int) (g : Grid) (r : RNG)
    (pollution popDensity : Int) : Grid × RNG :=
  if pollution > 128 then (g, r)
  else if ((g y x &&& LOMASK : Nat) : Int) = HOSPITAL ∨
          ((g y x &&& LOMASK : Nat) : Int) = CHURCH then (g, r)
  else if ((g y x &&& LOMASK : Nat) : Int) = FREEZ then
    if pop < 8 then (buildHouse g x y value, r)
    else if popDensity > 64 then resPlop x y 0 value g r
    else (g, r)
  else if pop < 40 then resPlop x y (pop.tdiv 8 - 1) value g r
  else (g, r)

/-- The C4 scenario: a bare residential placeholder (`FREEZ`, powered,
zone-center, bulldozable) at (5, 5) surrounded by bare bulldozable dirt. -/
def c4Map : Grid :=
  fun yy xx => if yy = 5 ∧ xx = 5
    then 244 ||| ZONEBIT ||| POWERBIT ||| BULLBIT
    else BULLBIT

/-- C4: on a `FREEZ` zone center with population below 8 and pollution
not above 128 the claim expects a house to be built on the best-scoring
neighbor; the neighbor search does find a positive-score lot
(`buildHouseZ = 1`), but `DoResIn`'s build path leaves the whole grid
(and the random stream) unchanged because `BuildHouse` writes nothing —
the code-level build branch is empty. -/
theorem claim_c4_house_never_built :
    (c4Map 5 5 &&& LOMASK : Nat) = 244 ∧
    ((0 : Int) < 8) ∧ ((0 : Int) ≤ 128) ∧
    buildHouseZ c4Map 5 5 = 1 ∧
    doResIn 0 2 5 5 c4Map ⟨fun _ => 0⟩ 0 0 = (c4Map, (⟨fun _ => 0⟩ : RNG)) := by
  refine ⟨by decide, by decide, by decide, by decide, ?_⟩
  rfl

/-! ### Special-zone handler (DoSPZ, zone.c lines 325-444): the police
and fire station branches write the coarse influence grids.  The
externally owned quarter-resolution maps are passed and returned; the
road-adjacency query `FindPRoad()` (external traffic service) is the
`roadAccess` parameter, `PoliceEffect` / `FireEffect` the external
effect settings. -/

abbrev CoarseGrid := Nat → Nat → Nat

/-- Pointwise coarse-grid update. -/
def updCoarse (m : CoarseGrid) (row col : Nat) (v : Nat) : CoarseGrid :=
  fun rr cc => if rr = row ∧ cc = col then v else m rr cc

/-- `DoSPZ` (zone.c lines 325-444) restricted to its effects on the
police/fire influence grids: `ZONEBIT` entry guard, the 16th-tick gate,
the power-plant/stadium/nuclear branches (which do not touch these
grids), and the police/fire branches — effect halved without power,
halved again without road access, written to
`Map[y >> 2][x >> 2]` and then capped at 250. -/
def doSPZ (cityTime cell x y : Nat) (roadAccess : Bool)
    (policeEffect fireEffect : Nat) (pm fm : CoarseGrid) :
    CoarseGrid × CoarseGrid :=
  if cell &&& ZONEBIT = 0 then (pm, fm)
  else if cityTime &&& 15 ≠ 0 then (pm, fm)
  else if ((cell &&& LOMASK : Nat) : Int) = POWERPLANT then (pm, fm)
  else if ((cell &&& LOMASK : Nat) : Int) = STADIUM then (pm, fm)
  else if ((cell &&& LOMASK : Nat) : Int) = NUCLEAR then (pm, fm)
  else if ((cell &&& LOMASK : Nat) : Int) = POLICESTATION then
    let e1 := if cell &&& POWERBIT ≠ 0 then policeEffect
              else policeEffect >>> 1
    let e2 := if roadAccess then e1 else e1 >>> 1
    let pm1 := updCoarse pm (y >>> 2) (x >>> 2) e2
    (if pm1 (y >>> 2) (x >>> 2) > 250
      then updCoarse pm1 (y >>> 2) (x >>> 2) 250 else pm1, fm)
  else if ((cell &&& LOMASK : Nat) : Int) = FIRESTATION then
    let e1 := if cell &&& POWERBIT ≠ 0 then fireEffect
              else fireEffect >>> 1
    let e2 := if roadAccess then e1 else e1 >>> 1
    let fm1 := updCoarse fm (y >>> 2) (x >>> 2) e2
    (pm, if fm1 (y >>> 2) (x >>> 2) > 250
      then updCoarse fm1 (y >>> 2) (x >>> 2) 250 else fm1)
  else (pm, fm)

theorem updCoarse_same (m : CoarseGrid) (row col v : Nat) :
    updCoarse m row col v row col = v := by
  simp [updCoarse]

/-- C8: a police-station center tile processed on a 16th tick leaves
`PoliceMap[y >> 2][x >> 2]` equal to `min effect 250`, where the effect
is the base `PoliceEffect` halved if unpowered and halved again without
road access, whatever the cell held before (overwrite, not
accumulation); a powered station with road access gets exactly
`min PoliceEffect 250`.  The same holds for fire stations on
`FireStMap` with `FireEffect`. -/
theorem claim_c8_station_influence (cityTime cell x y : Nat) (road : Bool)
    (pe fe : Nat) (pm fm : CoarseGrid)
    (hzone : cell &&& ZONEBIT ≠ 0) (htick : cityTime &&& 15 = 0) :
    (((cell &&& LOMASK : Nat) : Int) = POLICESTATION →
      (doSPZ cityTime cell x y road pe fe pm fm).1 (y >>> 2) (x >>> 2) =
        min (if road then (if cell &&& POWERBIT ≠ 0 then pe else pe >>> 1)
             else (if cell &&& POWERBIT ≠ 0 then pe else pe >>> 1) >>> 1) 250 ∧
      (cell &&& POWERBIT ≠ 0 → road = true →
        (doSPZ cityTime cell x y road pe fe pm fm).1 (y >>> 2) (x >>> 2) =
          min pe 250)) ∧
    (((cell &&& LOMASK : Nat) : Int) = FIRESTATION →
      (doSPZ cityTime cell x y road pe fe pm fm).2 (y >>> 2) (x >>> 2) =
        min (if road then (if cell &&& POWERBIT ≠ 0 then fe else fe >>> 1)
             else (if cell &&& POWERBIT ≠ 0 then fe else fe >>> 1) >>> 1) 250 ∧
      (cell &&& POWERBIT ≠ 0 → road = true →
        (doSPZ cityTime cell x y road pe fe pm fm).2 (y >>> 2) (x >>> 2) =
          min fe 250)) := by
  constructor
  · intro hpol
    have hmain : (doSPZ cityTime cell x y road pe fe pm fm).1 (y >>> 2) (x >>> 2) =
        min (if road then (if cell &&& POWERBIT ≠ 0 then pe else pe >>> 1)
             else (if cell &&& POWERBIT ≠ 0 then pe else pe >>> 1) >>> 1) 250 := by
      unfold doSPZ
      rw [if_neg hzone, if_neg (by simp [htick]),
        if_neg (by rw [hpol]; decide), if_neg (by rw [hpol]; decide),
        if_neg (by rw [hpol]; decide), if_pos hpol]
      simp only [updCoarse_same]
      split_ifs <;> simp [updCoarse] <;> omega
    refine ⟨hmain, fun hpow hroad => ?_⟩
    rw [hmain, hroad, if_pos rfl, if_pos hpow]
  · intro hfire
    have hmain : (doSPZ cityTime cell x y road pe fe pm fm).2 (y >>> 2) (x >>> 2) =
        min (if road then (if cell &&& POWERBIT ≠ 0 then fe else fe >>> 1)
             else (if cell &&& POWERBIT ≠ 0 then fe else fe >>> 1) >>> 1) 250 := by
      unfold doSPZ
      rw [if_neg hzone, if_neg (by simp [htick]),
        if_neg (by rw [hfire]; decide), if_neg (by rw [hfire]; decide),
        if_neg (by rw [hfire]; decide), if_neg (by rw [hfire]; decide),
        if_pos hfire]
      simp only [updCoarse_same]
      split_ifs <;> simp [updCoarse] <;> omega
    refine ⟨hmain, fun hpow hroad => ?_⟩
    rw [hmain, hroad, if_pos rfl, if_pos hpow]

theorem claim_c8_station_influence_witness :
    ((34566 : Nat) &&& ZONEBIT ≠ 0) ∧ ((16 : Nat) &&& 15 = 0) ∧
    (doSPZ 16 34566 8 12 true 600 100 (fun _ _ => 7) (fun _ _ => 7)).1
      (12 >>> 2) (8 >>> 2) = min 600 250 :=
  ⟨by decide, by decide,
    ((claim_c8_station_influence 16 34566 8 12 true 600 100
        (fun _ _ => 7) (fun _ _ => 7) (by decide) (by decide)).1
      (by decide)).2 (by decide) rfl⟩

end WiNTown
